import Mathlib

/-
Verification of the streaming-response classification and session-state
engine of the Bedrock-agent chat client (src/frontend.py).

The Python code is shallowly embedded as follows:
- Python values flowing through the event stream are modelled by the
  inductive type Json.  A Python string is modelled either as Json.str s
  (its text does not parse as JSON) or as Json.jstr j (its text is a
  well-formed JSON document denoting the value j); the two constructors
  partition the Python strings, so json.loads is the total function
  jsonLoads below.  A bytes object is Json.bytes d, where d = some s
  when the bytes are valid UTF-8 decoding to s and d = none otherwise.
- Fallible Python operations (subscripting, attribute access, decoding)
  return Except PyErr; an uncaught Python exception is an .error value
  that propagates through andThen, the embedded sequencing operator.
- Streamlit calls (st.expander, st.write, st.json, st.markdown, st.info)
  are modelled by the RenderableUnit values a handler returns: one unit
  per displayed block, carrying the kind, the expander title, the body
  and the expanded flag.  Side effects performed before an exception is
  raised are not tracked on error paths.
- The Streamlit session state (session_id, messages) is the structure
  SessionSt; the transport call invoke_agent and the event stream it
  returns are modelled by the InvokeOutcome argument of mainStep, which
  embeds the body of main() for one submitted prompt.
-/

namespace Frontend

/-- Embedded Python/JSON values arriving on the Bedrock event stream. -/
inductive Json where
  | null
  | bool (b : Bool)
  | num (n : Int)
  | str (s : String)
  | jstr (j : Json)
  | bytes (decoded : Option String)
  | arr (elems : List Json)
  | obj (fields : List (String × Json))

/-- Embedded Python exceptions that the handlers can raise. -/
inductive PyErr where
  | keyError (k : String)
  | typeError
  | indexError
  | attributeError
  | valueError
  | unicodeDecodeError
deriving Repr, DecidableEq

/-- Dictionary lookup: the value stored under key k, when j is a dict. -/
def Json.lookup (j : Json) (k : String) : Option Json :=
  match j with
  | .obj fs => fs.lookup k
  | _ => none

/-- Python   k in j   for a dict j. -/
def Json.hasKey (j : Json) (k : String) : Bool :=
  (j.lookup k).isSome

/-- Python subscription   j[k]  : KeyError when the key is absent,
TypeError when j is not a dict. -/
def pyIndex (j : Json) (k : String) : Except PyErr Json :=
  match j.lookup k with
  | some v => .ok v
  | none =>
    .error (match j with
      | .obj _ => PyErr.keyError k
      | _ => PyErr.typeError)

/-- Python subscription   j[i]   with an integer index, used for the
first content element of a model-output payload. -/
def pyIndexNat (j : Json) (i : Nat) : Except PyErr Json :=
  match j with
  | .arr xs =>
    match xs.get? i with
    | some v => .ok v
    | none => .error .indexError
  | .obj _ => .error (.keyError (toString i))
  | _ => .error .typeError

/-- Python   j.get(k, d)  : AttributeError when j is not a dict. -/
def pyGetD (j : Json) (k : String) (d : Json) : Except PyErr Json :=
  match j with
  | .obj fs => .ok ((fs.lookup k).getD d)
  | _ => .error .attributeError

/-- Python   j.get(k)   with the default None. -/
def pyGet1 (j : Json) (k : String) : Except PyErr Json :=
  pyGetD j k .null

/-- Python   b.decode()  : UTF-8 decoding of a bytes payload. -/
def pyDecode (j : Json) : Except PyErr String :=
  match j with
  | .bytes (some s) => .ok s
  | .bytes none => .error .unicodeDecodeError
  | _ => .error .attributeError

/-- Python   json.loads  : succeeds exactly on strings whose text is a
well-formed JSON document (the jstr constructor). -/
def jsonLoads (j : Json) : Except PyErr Json :=
  match j with
  | .jstr v => .ok v
  | .str _ => .error .valueError
  | _ => .error .typeError

/-- Python truthiness of an embedded value. -/
def Json.truthy : Json → Bool
  | .null => false
  | .bool b => b
  | .num n => n != 0
  | .str s => s != ""
  | .jstr _ => true
  | .bytes _ => true
  | .arr xs => !xs.isEmpty
  | .obj fs => !fs.isEmpty

/-- Python str() as used inside the f-string titles.  The claims only
evaluate it on plain strings; the text of other shapes is not tracked. -/
def pyStr : Json → String
  | .null => "None"
  | .bool true => "True"
  | .bool false => "False"
  | .num n => toString n
  | .str s => s
  | .jstr _ => ""
  | .bytes _ => ""
  | .arr _ => ""
  | .obj _ => ""

/-- Python equality of a value with a string literal, as in the
invocationType and observation type dispatches. -/
def Json.isStr (j : Json) (t : String) : Bool :=
  match j with
  | .str s => s == t
  | _ => false

/-- Sequencing of fallible steps: a raised exception propagates. -/
def andThen (x : Except PyErr α) (f : α → Except PyErr β) : Except PyErr β :=
  match x with
  | .error e => .error e
  | .ok a => f a

/-- Boolean success test for an embedded fallible computation. -/
def isOkE (x : Except PyErr α) : Bool :=
  match x with
  | .ok _ => true
  | .error _ => false

/-- ToolKind of the spec: which invocationInput dispatch branch fired. -/
inductive ToolKind where
  | agentCollaborator
  | knowledgeBase
  | actionGroup
deriving Repr, DecidableEq

/-- ObservationKind of the spec: which observation dispatch branch fired. -/
inductive ObsKind where
  | knowledgeBaseResult
  | agentCollaboratorResult
deriving Repr, DecidableEq

/-- Kind tag of a displayed block. -/
inductive UnitKind where
  | modelInput
  | modelOutput
  | rationale
  | toolInvocation (t : ToolKind)
  | observation (o : ObsKind)
  | answer
deriving Repr, DecidableEq

/-- One displayed block: an expander (title, body, expanded flag) or, for
kind answer, a chat-bubble write.  Answer units carry an empty title and
the expanded flag true; the source shows them without an expander. -/
structure RenderableUnit where
  kind : UnitKind
  title : String
  body : Json
  expanded : Bool

/-- One entry of st.session_state.messages. -/
structure TranscriptEntry where
  role : String
  text : String
deriving Repr, DecidableEq

def kbObsTitle : String := "🔍 ナレッジベースから検索結果を取得しました"

def acOutTitle (name : String) : String :=
  "🤖 サブエージェント「" ++ name ++ "」から回答を取得しました"

def acInTitle (name : String) : String :=
  "🤖 サブエージェント「" ++ name ++ "」を呼び出し中…"

/-- Embedding of display_observation_details (frontend.py lines 41-67). -/
def display_observation_details (observation : Json) : Except PyErr (List RenderableUnit) :=
  andThen (pyGet1 observation "type") fun obs_type =>
  if obs_type.isStr "KNOWLEDGE_BASE" then
    andThen (pyGetD observation "knowledgeBaseLookupOutput" (.obj [])) fun kb_output =>
    andThen (pyGetD kb_output "retrievedReferences" (.arr [])) fun references =>
    if references.truthy then
      .ok [⟨.observation .knowledgeBaseResult, kbObsTitle, references, false⟩]
    else
      .ok [⟨.observation .knowledgeBaseResult, kbObsTitle,
            .str "関連するドキュメントは見つかりませんでした。", false⟩]
  else if obs_type.isStr "AGENT_COLLABORATOR" then
    andThen (pyGetD observation "agentCollaboratorInvocationOutput" (.obj [])) fun ac_output =>
    andThen (pyGetD ac_output "agentCollaboratorName" (.str "不明なエージェント")) fun agent_name =>
    andThen (pyGetD ac_output "output" (.obj [])) fun outObj =>
    andThen (pyGet1 outObj "text") fun output_text =>
    if output_text.truthy then
      .ok [⟨.observation .agentCollaboratorResult, acOutTitle (pyStr agent_name), output_text, true⟩]
    else
      .ok [⟨.observation .agentCollaboratorResult, acOutTitle (pyStr agent_name),
            .str "サブエージェントからのテキスト出力はありませんでした。", true⟩]
  else
    .ok []

/-- The modelInvocationInput block of handle_trace_event (lines 77-89):
try to parse the text as JSON, fall back to the raw text. -/
def miiUnits (trace : Json) : Except PyErr (List RenderableUnit) :=
  if trace.hasKey "modelInvocationInput" then
    andThen (pyIndex trace "modelInvocationInput") fun mii =>
    andThen (pyIndex mii "text") fun input_trace =>
    match jsonLoads input_trace with
    | .ok j => .ok [⟨.modelInput, "🤔 思考中…", j, false⟩]
    | .error _ => .ok [⟨.modelInput, "🤔 思考中…", input_trace, false⟩]
  else .ok []

/-- The try-block of the modelInvocationOutput branch (lines 95-100):
json.loads(output_trace)["content"][0]["text"], written out step by step. -/
def modelOutputParse (output_trace : Json) : Except PyErr Json :=
  andThen (jsonLoads output_trace) fun parsed =>
  andThen (pyIndex parsed "content") fun content =>
  andThen (pyIndexNat content 0) fun first =>
  andThen (pyIndex first "text") fun thinking =>
  if thinking.truthy then .ok thinking else .ok first

/-- Body displayed for a modelInvocationOutput payload: the try-block
result, or the raw payload when any step of the try-block raises. -/
def modelOutputBody (output_trace : Json) : Json :=
  match modelOutputParse output_trace with
  | .ok b => b
  | .error _ => output_trace

/-- The modelInvocationOutput block of handle_trace_event (lines 92-102). -/
def mioUnits (trace : Json) : Except PyErr (List RenderableUnit) :=
  if trace.hasKey "modelInvocationOutput" then
    andThen (pyIndex trace "modelInvocationOutput") fun mio =>
    andThen (pyIndex mio "rawResponse") fun rawResponse =>
    andThen (pyIndex rawResponse "content") fun output_trace =>
    .ok [⟨.modelOutput, "💡 思考がまとまりました", modelOutputBody output_trace, false⟩]
  else .ok []

/-- The rationale block of handle_trace_event (lines 105-107). -/
def rationaleUnits (trace : Json) : Except PyErr (List RenderableUnit) :=
  if trace.hasKey "rationale" then
    andThen (pyIndex trace "rationale") fun r =>
    andThen (pyIndex r "text") fun t =>
    .ok [⟨.rationale, "✅ 次のアクションを決定しました", t, true⟩]
  else .ok []

/-- Dispatch on invocationType inside the invocationInput block
(lines 111-124).  Note the direct subscriptions: the AGENT_COLLABORATOR
branch raises KeyError when agentCollaboratorInvocationInput or its
agentCollaboratorName is absent. -/
def invInner (ii : Json) : Except PyErr (List RenderableUnit) :=
  andThen (pyIndex ii "invocationType") fun invocation_type =>
  if invocation_type.isStr "AGENT_COLLABORATOR" then
    andThen (pyIndex ii "agentCollaboratorInvocationInput") fun aci =>
    andThen (pyIndex aci "agentCollaboratorName") fun agent_name =>
    andThen (pyIndex aci "input") fun inp =>
    andThen (pyIndex inp "text") fun t =>
    .ok [⟨.toolInvocation .agentCollaborator, acInTitle (pyStr agent_name), t, true⟩]
  else if invocation_type.isStr "KNOWLEDGE_BASE" then
    andThen (pyIndex ii "knowledgeBaseLookupInput") fun kbl =>
    andThen (pyIndex kbl "text") fun t =>
    .ok [⟨.toolInvocation .knowledgeBase, "📖 ナレッジベースを検索中…", t, false⟩]
  else if invocation_type.isStr "ACTION_GROUP" then
    andThen (pyIndex ii "actionGroupInvocationInput") fun agi =>
    .ok [⟨.toolInvocation .actionGroup, "💻 Lambdaを実行中…", agi, false⟩]
  else .ok []

/-- The invocationInput block of handle_trace_event (lines 110-124). -/
def invocationUnits (trace : Json) : Except PyErr (List RenderableUnit) :=
  if trace.hasKey "invocationInput" then
    andThen (pyIndex trace "invocationInput") invInner
  else .ok []

/-- The observation block of handle_trace_event (lines 127-130). -/
def observationUnits (trace : Json) : Except PyErr (List RenderableUnit) :=
  if trace.hasKey "observation" then
    andThen (pyIndex trace "observation") fun obs =>
    display_observation_details obs
  else .ok []

/-- Embedding of handle_trace_event (lines 69-130): the five orchestration
sub-fields are inspected independently, in this fixed order. -/
def handle_trace_event (event : Json) : Except PyErr (List RenderableUnit) :=
  andThen (pyIndex event "trace") fun t1 =>
  andThen (pyIndex t1 "trace") fun t2 =>
  if t2.hasKey "orchestrationTrace" then
    andThen (pyIndex t2 "orchestrationTrace") fun trace =>
    andThen (miiUnits trace) fun u1 =>
    andThen (mioUnits trace) fun u2 =>
    andThen (rationaleUnits trace) fun u3 =>
    andThen (invocationUnits trace) fun u4 =>
    andThen (observationUnits trace) fun u5 =>
    .ok (u1 ++ u2 ++ u3 ++ u4 ++ u5)
  else .ok []

/-- Processing of one stream event inside handle_agent_response
(lines 146-154): the trace check comes first, the chunk check second,
and the two are independent.  Returns the displayed units and the
transcript entries appended for this event. -/
def processEvent (event : Json) : Except PyErr (List RenderableUnit × List TranscriptEntry) :=
  andThen (if event.hasKey "trace" then handle_trace_event event else .ok []) fun traceUnits =>
  if event.hasKey "chunk" then
    andThen (pyIndex event "chunk") fun chunk =>
    andThen (pyIndex chunk "bytes") fun b =>
    andThen (pyDecode b) fun answer =>
    .ok (traceUnits ++ [⟨.answer, "", .str answer, true⟩], [⟨"assistant", answer⟩])
  else .ok (traceUnits, [])

/-- Result of draining the completion stream: the transcript after the
appends performed so far, the units displayed, and the exception that
aborted the loop, if any. -/
structure ConsumeResult where
  messages : List TranscriptEntry
  units : List RenderableUnit
  error : Option PyErr

/-- The event loop of handle_agent_response: events are consumed in
stream order; an exception raised while processing one event aborts the
loop, keeping the appends already performed. -/
def consumeEvents : List Json → List TranscriptEntry → List RenderableUnit → ConsumeResult
  | [], ms, us => ⟨ms, us, none⟩
  | e :: rest, ms, us =>
    match processEvent e with
    | .ok (u, nm) => consumeEvents rest (ms ++ nm) (us ++ u)
    | .error err => ⟨ms, us, some err⟩

/-- Embedding of handle_agent_response (lines 143-154). -/
def handle_agent_response (completion : List Json) (messages : List TranscriptEntry) : ConsumeResult :=
  consumeEvents completion messages []

/-- Embedding of show_error_popup (lines 156-162).  Called by main only
with the two literals below; on any other argument the source would
raise UnboundLocalError, modelled by none. -/
def show_error_popup (exeption : String) : Option String :=
  if exeption == "dependencyFailedException" then
    some "【エラー】ナレッジベースのAurora DBがスリープしていたようです。数秒おいてから、ブラウザをリロードして再度お試しください🙏"
  else if exeption == "throttlingException" then
    some "【エラー】Bedrockのモデル負荷が高いようです。1分待ってから、ブラウザをリロードして再度お試しください🙏（改善しない場合は、モデルを変更するか[サービスクォータの引き上げ申請](https://aws.amazon.com/jp/blogs/news/generative-ai-amazon-bedrock-handling-quota-problems/)を実施ください）"
  else
    none

/-- Exception class of a transport error: the except clause of main
catches exactly EventStreamError and ClientError. -/
inductive TransportKind where
  | eventStreamError
  | clientError
  | otherError
deriving Repr, DecidableEq

/-- A transport-level exception, identified by its class and by str(e). -/
structure TransportErr where
  kind : TransportKind
  msg : String
deriving Repr, DecidableEq

/-- Whether pat is a prefix of s, on character lists. -/
def startsWithList : List Char → List Char → Bool
  | [], _ => true
  | _ :: _, [] => false
  | a :: as, b :: bs => a == b && startsWithList as bs

/-- Whether pat occurs as a contiguous sublist of s. -/
def hasSubList : List Char → List Char → Bool
  | pat, [] => pat.isEmpty
  | pat, b :: rest => startsWithList pat (b :: rest) || hasSubList pat rest

/-- Python   pat in s   for strings. -/
def strContains (s pat : String) : Bool :=
  hasSubList pat.data s.data

/-- Outcome of the invoke_agent call and of draining its stream: either
the call itself raises, or it yields a finite list of events, optionally
terminated by a transport error raised during iteration. -/
inductive InvokeOutcome where
  | failed (e : TransportErr)
  | stream (events : List Json) (terminal : Option TransportErr)

/-- Result of one pass through the body of main (lines 164-190). -/
inductive SubmitResult where
  | notInvoked
  | completed (units : List RenderableUnit)
  | popup (message : Option String)
  | raised (e : TransportErr)
  | uncaught (e : PyErr)

/-- The Streamlit session state owned by main. -/
structure SessionSt where
  session_id : String
  messages : List TranscriptEntry

/-- Whether the except clause of main (line 184) catches this class. -/
def caughtKind (k : TransportKind) : Bool :=
  k == .eventStreamError || k == .clientError

/-- The body of the except clause (lines 185-190): substring dispatch on
str(e), in source order; anything else is re-raised unchanged. -/
def classifyCaught (e : TransportErr) : SubmitResult :=
  if strContains e.msg "dependencyFailedException" then
    .popup (show_error_popup "dependencyFailedException")
  else if strContains e.msg "throttlingException" then
    .popup (show_error_popup "throttlingException")
  else .raised e

/-- Dispatch of a raised transport error: classified when its class is
caught by the except clause, propagated unchanged otherwise. -/
def handleTransportErr (e : TransportErr) : SubmitResult :=
  if caughtKind e.kind then classifyCaught e else .raised e

/-- Embedding of the prompt-handling body of main (lines 170-190) for one
turn: st.chat_input yields prompt (falsy when empty), the transport and
its stream are summarised by outcome.  Returns the updated session state
and what the turn produced. -/
def mainStep (st : SessionSt) (prompt : String) (outcome : InvokeOutcome) : SessionSt × SubmitResult :=
  if prompt == "" then (st, .notInvoked)
  else
    let st1 : SessionSt := ⟨st.session_id, st.messages ++ [⟨"human", prompt⟩]⟩
    match outcome with
    | .failed e => (st1, handleTransportErr e)
    | .stream events terminal =>
      let r := handle_agent_response events st1.messages
      let st2 : SessionSt := ⟨st1.session_id, r.messages⟩
      match r.error with
      | some perr => (st2, .uncaught perr)
      | none =>
        match terminal with
        | some te => (st2, handleTransportErr te)
        | none => (st2, .completed r.units)

/-
Shapes of the section-6 stream contract.  A RawShape enumerates the
well-formed raw events: either a chunk event, or a trace event whose
trace.trace record optionally carries an orchestrationTrace with any
subset of the five orchestration sub-fields; every sub-field marked
optional in the contract is an Option here, independently present or
absent.  RawShape.toJson produces the corresponding raw event value.
-/

/-- A Python string leaf of the contract: either text that is not a JSON
document, or text that parses as the JSON value carried. -/
inductive JStr where
  | plain (s : String)
  | parsed (j : Json)

def JStr.toJson : JStr → Json
  | .plain s => .str s
  | .parsed j => .jstr j

/-- Field list of an optional record field: present or absent. -/
def optField (k : String) : Option Json → List (String × Json)
  | some v => [(k, v)]
  | none => []

/-- Shape of agentCollaboratorInvocationInput: the collaborator name is
optional (the spec gives it a default), the input text is carried. -/
structure ACInShape where
  name : Option JStr
  inputText : JStr

def ACInShape.toJson (a : ACInShape) : Json :=
  .obj (optField "agentCollaboratorName" (a.name.map JStr.toJson) ++
        [("input", .obj [("text", a.inputText.toJson)])])

/-- Shape of invocationInput: the invocationType, plus the three
optional type-specific sub-inputs. -/
structure InvShape where
  invocationType : JStr
  aci : Option ACInShape
  kbl : Option JStr
  agi : Option Json

def InvShape.toJson (v : InvShape) : Json :=
  .obj ([("invocationType", v.invocationType.toJson)] ++
        optField "agentCollaboratorInvocationInput" (v.aci.map ACInShape.toJson) ++
        optField "knowledgeBaseLookupInput"
          (v.kbl.map (fun t => Json.obj [("text", t.toJson)])) ++
        optField "actionGroupInvocationInput" v.agi)

/-- Shape of agentCollaboratorInvocationOutput: optional name, optional
output record with an optional text field. -/
structure ACOutShape where
  name : Option JStr
  output : Option (Option Json)

def ACOutShape.toJson (a : ACOutShape) : Json :=
  .obj (optField "agentCollaboratorName" (a.name.map JStr.toJson) ++
        optField "output" (a.output.map (fun t => Json.obj (optField "text" t))))

/-- Shape of observation: a type, an optional knowledgeBaseLookupOutput
with optional retrievedReferences, an optional collaborator output. -/
structure ObsShape where
  type : JStr
  kbOut : Option (Option (List Json))
  acOut : Option ACOutShape

def ObsShape.toJson (o : ObsShape) : Json :=
  .obj ([("type", o.type.toJson)] ++
        optField "knowledgeBaseLookupOutput"
          (o.kbOut.map (fun r => Json.obj (optField "retrievedReferences" (r.map Json.arr)))) ++
        optField "agentCollaboratorInvocationOutput" (o.acOut.map ACOutShape.toJson))

/-- Shape of an orchestrationTrace: any subset of the five sub-fields. -/
structure OrchShape where
  mii : Option JStr
  mio : Option Json
  rat : Option Json
  inv : Option InvShape
  obs : Option ObsShape

def OrchShape.toJson (c : OrchShape) : Json :=
  .obj (optField "modelInvocationInput" (c.mii.map (fun t => Json.obj [("text", t.toJson)])) ++
        optField "modelInvocationOutput"
          (c.mio.map (fun v => Json.obj [("rawResponse", Json.obj [("content", v)])])) ++
        optField "rationale" (c.rat.map (fun v => Json.obj [("text", v)])) ++
        optField "invocationInput" (c.inv.map InvShape.toJson) ++
        optField "observation" (c.obs.map ObsShape.toJson))

/-- A well-formed raw event of the section-6 contract. -/
inductive RawShape where
  | chunk (text : String)
  | trace (orch : Option OrchShape)

def RawShape.toJson : RawShape → Json
  | .chunk s => .obj [("chunk", .obj [("bytes", .bytes (some s))])]
  | .trace none => .obj [("trace", .obj [("trace", .obj [])])]
  | .trace (some c) => .obj [("trace", .obj [("trace", .obj [("orchestrationTrace", c.toJson)])])]

/-- Whether the code recognises this invocationType. -/
def InvShape.recognized (v : InvShape) : Bool :=
  v.invocationType.toJson.isStr "AGENT_COLLABORATOR" ||
  v.invocationType.toJson.isStr "KNOWLEDGE_BASE" ||
  v.invocationType.toJson.isStr "ACTION_GROUP"

/-- Whether the sub-input the invocationType selects is present with the
fields the code subscripts directly; exactly the events on which the
invocationInput block does not raise. -/
def InvShape.safe (v : InvShape) : Bool :=
  if v.invocationType.toJson.isStr "AGENT_COLLABORATOR" then
    match v.aci with
    | some a => a.name.isSome
    | none => false
  else if v.invocationType.toJson.isStr "KNOWLEDGE_BASE" then v.kbl.isSome
  else if v.invocationType.toJson.isStr "ACTION_GROUP" then v.agi.isSome
  else true

/-- Whether the code recognises this observation type. -/
def ObsShape.recognized (o : ObsShape) : Bool :=
  o.type.toJson.isStr "KNOWLEDGE_BASE" || o.type.toJson.isStr "AGENT_COLLABORATOR"

def invSafeO : Option InvShape → Bool
  | none => true
  | some v => v.safe

def invOkO : Option InvShape → Bool
  | none => true
  | some v => v.recognized && v.safe

def obsOkO : Option ObsShape → Bool
  | none => true
  | some o => o.recognized

/-- Safety condition of a whole raw event: chunk events and trace events
without a dangerous invocationInput. -/
def rawSafe : RawShape → Bool
  | .chunk _ => true
  | .trace none => true
  | .trace (some c) => invSafeO c.inv

/-- Number of orchestration sub-fields present on the event. -/
def OrchShape.presentCount (c : OrchShape) : Nat :=
  (if c.mii.isSome then 1 else 0) + (if c.mio.isSome then 1 else 0) +
  (if c.rat.isSome then 1 else 0) + (if c.inv.isSome then 1 else 0) +
  (if c.obs.isSome then 1 else 0)

/-- Kind of the unit an invocationInput sub-field yields: one per
recognised invocationType, none for an unrecognised one. -/
def invKindsO : Option InvShape → List UnitKind
  | none => []
  | some v =>
    if v.invocationType.toJson.isStr "AGENT_COLLABORATOR" then
      [UnitKind.toolInvocation .agentCollaborator]
    else if v.invocationType.toJson.isStr "KNOWLEDGE_BASE" then
      [UnitKind.toolInvocation .knowledgeBase]
    else if v.invocationType.toJson.isStr "ACTION_GROUP" then
      [UnitKind.toolInvocation .actionGroup]
    else []

/-- Kind of the unit an observation sub-field yields: one per recognised
observation type, none for an unrecognised one. -/
def obsKindsO : Option ObsShape → List UnitKind
  | none => []
  | some o =>
    if o.type.toJson.isStr "KNOWLEDGE_BASE" then
      [UnitKind.observation .knowledgeBaseResult]
    else if o.type.toJson.isStr "AGENT_COLLABORATOR" then
      [UnitKind.observation .agentCollaboratorResult]
    else []

/-- Kind sequence the spec prescribes for a trace event: one unit per
present (and recognised) sub-field, in the fixed order ModelInput,
ModelOutput, Rationale, ToolInvocation, Observation (transcribed from
the spec, for comparison with what the code emits). -/
def specRenderKinds (c : OrchShape) : List UnitKind :=
  (if c.mii.isSome then [UnitKind.modelInput] else []) ++
  (if c.mio.isSome then [UnitKind.modelOutput] else []) ++
  (if c.rat.isSome then [UnitKind.rationale] else []) ++
  invKindsO c.inv ++ obsKindsO c.obs

/-- Text of the answer chunk an event carries, when it carries one. -/
def chunkText (e : Json) : Option String :=
  match e.lookup "chunk" with
  | some c =>
    match c.lookup "bytes" with
    | some (.bytes (some s)) => some s
    | _ => none
  | none => none

/-- Transcript entries one event contributes: one assistant entry per
decoded chunk. -/
def entryOf (e : Json) : List TranscriptEntry :=
  match chunkText e with
  | some s => [⟨"assistant", s⟩]
  | none => []

/-- Body the modelInvocationInput block displays for a given text leaf. -/
def miiBody : JStr → Json
  | .plain s => .str s
  | .parsed j => j

/-
Concrete inputs used to settle the claims.
-/

/-- A raw event carrying both a top-level trace field (with a rationale
orchestration trace) and a top-level chunk field. -/
def bothFieldsEvt (t s : String) : Json :=
  .obj [("trace", .obj [("trace", .obj [("orchestrationTrace",
          (OrchShape.toJson ⟨none, none, some (.str t), none, none⟩))])]),
        ("chunk", .obj [("bytes", .bytes (some s))])]

/-- Contract-shaped trace event whose invocationInput announces an agent
collaborator but carries no agentCollaboratorInvocationInput record. -/
def c2BadEvent : RawShape :=
  .trace (some ⟨none, none, none,
    some ⟨.plain "AGENT_COLLABORATOR", none, none, none⟩, none⟩)

/-- Contract-shaped trace event with all five sub-fields absent except a
knowledge-base invocationInput and a knowledge-base observation. -/
def c2GoodEvent : RawShape :=
  .trace (some ⟨some (.plain "思考テキスト"), some (.str "生データ"), some (.str "根拠"),
    some ⟨.plain "KNOWLEDGE_BASE", none, some (.plain "検索語"), none⟩,
    some ⟨.plain "KNOWLEDGE_BASE", some (some []), none⟩⟩)

/-- Contract-shaped trace event whose agent-collaborator invocation input
is present but carries no agentCollaboratorName. -/
def c3Event (inputText : JStr) : RawShape :=
  .trace (some ⟨none, none, none,
    some ⟨.plain "AGENT_COLLABORATOR", some ⟨none, inputText⟩, none, none⟩, none⟩)

/-- Orchestration trace whose only present sub-field is an
invocationInput with the unrecognised invocationType FINISH. -/
def c4BadOrch : OrchShape :=
  ⟨none, none, none, some ⟨.plain "FINISH", none, none, none⟩, none⟩

/-- Orchestration trace with all five sub-fields present, recognised and
complete. -/
def c4FullOrch : OrchShape :=
  ⟨some (.plain "思考テキスト"), some (.str "生データ"), some (.str "根拠"),
   some ⟨.plain "ACTION_GROUP", none, none, some (.obj [])⟩,
   some ⟨.plain "AGENT_COLLABORATOR", none, some ⟨some (.plain "サブ"), some (some (.str "結果"))⟩⟩⟩

/-- Stream holding one malformed trace event followed by one chunk. -/
def c5Events : List Json :=
  [(RawShape.trace (some ⟨none, none, none,
      some ⟨.plain "AGENT_COLLABORATOR", none, none, none⟩, none⟩)).toJson,
   (RawShape.chunk "こんにちは").toJson]

/-- Stream of two well-formed chunk events. -/
def c5GoodEvents : List Json :=
  [(RawShape.chunk "回答A").toJson, (RawShape.chunk "回答B").toJson]

def c6St : SessionSt := ⟨"セッション6", []⟩

/-- A caught client error whose text embeds the throttling token. -/
def c6Err : TransportErr :=
  ⟨.clientError,
   "An error occurred (throttlingException) when calling the InvokeAgent operation"⟩

/-- Parsed model-output document with one non-empty text element. -/
def c7Doc : List (String × Json) := [("content", .arr [.obj [("text", .str "思考結果")]])]

def c8St : SessionSt := ⟨"セッション8", []⟩

def c8Events : List Json := [(RawShape.chunk "回答A").toJson]

/-- A stream-terminating dependency failure. -/
def c8Terminal : TransportErr :=
  ⟨.eventStreamError, "dependencyFailedException: knowledge base unavailable"⟩

def c9St : SessionSt := ⟨"セッション9", []⟩

/-- An uncaught error class whose text embeds the throttling token. -/
def c9Err : TransportErr :=
  ⟨.otherError, "RuntimeError: throttlingException mentioned in passing"⟩

/-
Characterisation lemmas: what each orchestration block produces on a
contract-shaped event.
-/
@[simp] theorem andThen_ok (a : α) (f : α → Except PyErr β) :
    andThen (.ok a) f = f a := rfl

@[simp] theorem andThen_error (e : PyErr) (f : α → Except PyErr β) :
    andThen (.error e) f = .error e := rfl

theorem miiUnits_orch (c : OrchShape) :
    miiUnits c.toJson = .ok (match c.mii with
      | none => []
      | some t => [⟨.modelInput, "🤔 思考中…", miiBody t, false⟩]) := by
  obtain ⟨mii, mio, rat, inv, obs⟩ := c
  cases mii with
  | some t => cases t <;> rfl
  | none => cases mio <;> cases rat <;> cases inv <;> cases obs <;> rfl

theorem mioUnits_orch (c : OrchShape) :
    mioUnits c.toJson = .ok (match c.mio with
      | none => []
      | some v => [⟨.modelOutput, "💡 思考がまとまりました", modelOutputBody v, false⟩]) := by
  obtain ⟨mii, mio, rat, inv, obs⟩ := c
  cases mio with
  | some v => cases mii <;> rfl
  | none => cases mii <;> cases rat <;> cases inv <;> cases obs <;> rfl

theorem rationaleUnits_orch (c : OrchShape) :
    rationaleUnits c.toJson = .ok (match c.rat with
      | none => []
      | some v => [⟨.rationale, "✅ 次のアクションを決定しました", v, true⟩]) := by
  obtain ⟨mii, mio, rat, inv, obs⟩ := c
  cases rat with
  | some v => cases mii <;> cases mio <;> rfl
  | none => cases mii <;> cases mio <;> cases inv <;> cases obs <;> rfl

theorem invocationUnits_orch (c : OrchShape) :
    invocationUnits c.toJson = (match c.inv with
      | none => .ok []
      | some v => invInner v.toJson) := by
  obtain ⟨mii, mio, rat, inv, obs⟩ := c
  cases inv with
  | some v => cases mii <;> cases mio <;> cases rat <;> rfl
  | none => cases mii <;> cases mio <;> cases rat <;> cases obs <;> rfl

theorem observationUnits_orch (c : OrchShape) :
    observationUnits c.toJson = (match c.obs with
      | none => .ok []
      | some o => display_observation_details o.toJson) := by
  obtain ⟨mii, mio, rat, inv, obs⟩ := c
  cases obs with
  | some o => cases mii <;> cases mio <;> cases rat <;> cases inv <;> rfl
  | none => cases mii <;> cases mio <;> cases rat <;> cases inv <;> rfl

theorem handle_trace_event_unfold (c : OrchShape) :
    handle_trace_event (RawShape.trace (some c)).toJson =
      (andThen (miiUnits c.toJson) fun u1 =>
       andThen (mioUnits c.toJson) fun u2 =>
       andThen (rationaleUnits c.toJson) fun u3 =>
       andThen (invocationUnits c.toJson) fun u4 =>
       andThen (observationUnits c.toJson) fun u5 =>
       .ok (u1 ++ u2 ++ u3 ++ u4 ++ u5)) := rfl

theorem invInner_spec (v : InvShape) (hs : v.safe = true) :
    ∃ us, invInner v.toJson = .ok us ∧
      us.map (fun u => u.kind) = invKindsO (some v) := by
  obtain ⟨ty, aci, kbl, agi⟩ := v
  cases ty with
  | parsed j =>
    refine ⟨[], ?_, ?_⟩ <;> cases aci <;> cases kbl <;> cases agi <;> rfl
  | plain s =>
    cases h1 : s == "AGENT_COLLABORATOR" with
    | true =>
      cases aci with
      | none => simp [InvShape.safe, JStr.toJson, Json.isStr, h1] at hs
      | some a =>
        obtain ⟨nm, it⟩ := a
        cases nm with
        | none => simp [InvShape.safe, JStr.toJson, Json.isStr, h1] at hs
        | some nmv =>
          refine ⟨[⟨.toolInvocation .agentCollaborator,
                    acInTitle (pyStr nmv.toJson), it.toJson, true⟩], ?_, ?_⟩
          · simp [invInner, InvShape.toJson, ACInShape.toJson, optField, pyIndex,
              Json.lookup, List.lookup, Json.isStr, JStr.toJson, h1]
          · simp [invKindsO, Json.isStr, JStr.toJson, h1]
    | false =>
      cases h2 : s == "KNOWLEDGE_BASE" with
      | true =>
        cases kbl with
        | none => simp [InvShape.safe, JStr.toJson, Json.isStr, h1, h2] at hs
        | some t =>
          refine ⟨[⟨.toolInvocation .knowledgeBase, "📖 ナレッジベースを検索中…",
                    t.toJson, false⟩], ?_, ?_⟩
          · cases aci <;>
              simp [invInner, InvShape.toJson, optField, pyIndex,
                Json.lookup, List.lookup, Json.isStr, JStr.toJson, h1, h2]
          · simp [invKindsO, Json.isStr, JStr.toJson, h1, h2]
      | false =>
        cases h3 : s == "ACTION_GROUP" with
        | true =>
          cases agi with
          | none => simp [InvShape.safe, JStr.toJson, Json.isStr, h1, h2, h3] at hs
          | some g =>
            refine ⟨[⟨.toolInvocation .actionGroup, "💻 Lambdaを実行中…",
                      g, false⟩], ?_, ?_⟩
            · cases aci <;> cases kbl <;>
                simp [invInner, InvShape.toJson, optField, pyIndex,
                  Json.lookup, List.lookup, Json.isStr, JStr.toJson, h1, h2, h3]
            · simp [invKindsO, Json.isStr, JStr.toJson, h1, h2, h3]
        | false =>
          refine ⟨[], ?_, ?_⟩
          · cases aci <;> cases kbl <;> cases agi <;>
              simp [invInner, InvShape.toJson, optField, pyIndex,
                Json.lookup, List.lookup, Json.isStr, JStr.toJson, h1, h2, h3]
          · simp [invKindsO, Json.isStr, JStr.toJson, h1, h2, h3]

theorem display_obs_spec (o : ObsShape) :
    ∃ us, display_observation_details o.toJson = .ok us ∧
      us.map (fun u => u.kind) = obsKindsO (some o) := by
  obtain ⟨ty, kbOut, acOut⟩ := o
  cases ty with
  | parsed j =>
    refine ⟨[], ?_, ?_⟩ <;> cases kbOut <;> cases acOut <;> rfl
  | plain s =>
    cases h1 : s == "KNOWLEDGE_BASE" with
    | true =>
      have hkind : obsKindsO (some ⟨JStr.plain s, kbOut, acOut⟩) =
          [UnitKind.observation .knowledgeBaseResult] := by
        simp [obsKindsO, Json.isStr, JStr.toJson, h1]
      cases kbOut with
      | none =>
        refine ⟨[⟨.observation .knowledgeBaseResult, kbObsTitle,
                  .str "関連するドキュメントは見つかりませんでした。", false⟩], ?_, ?_⟩
        · cases acOut <;>
            simp [display_observation_details, ObsShape.toJson, optField, pyGet1,
              pyGetD, Json.lookup, List.lookup, Json.isStr, JStr.toJson, Json.truthy, h1]
        · rw [hkind]; rfl
      | some r =>
        cases r with
        | none =>
          refine ⟨[⟨.observation .knowledgeBaseResult, kbObsTitle,
                    .str "関連するドキュメントは見つかりませんでした。", false⟩], ?_, ?_⟩
          · simp [display_observation_details, ObsShape.toJson, optField, pyGet1,
              pyGetD, Json.lookup, List.lookup, Json.isStr, JStr.toJson, Json.truthy, h1]
          · rw [hkind]; rfl
        | some rs =>
          cases ht : (Json.arr rs).truthy with
          | true =>
            refine ⟨[⟨.observation .knowledgeBaseResult, kbObsTitle, .arr rs, false⟩], ?_, ?_⟩
            · simp [display_observation_details, ObsShape.toJson, optField, pyGet1,
                pyGetD, Json.lookup, List.lookup, Json.isStr, JStr.toJson, h1, ht]
            · rw [hkind]; rfl
          | false =>
            refine ⟨[⟨.observation .knowledgeBaseResult, kbObsTitle,
                      .str "関連するドキュメントは見つかりませんでした。", false⟩], ?_, ?_⟩
            · simp [display_observation_details, ObsShape.toJson, optField, pyGet1,
                pyGetD, Json.lookup, List.lookup, Json.isStr, JStr.toJson, h1, ht]
            · rw [hkind]; rfl
    | false =>
      cases h2 : s == "AGENT_COLLABORATOR" with
      | true =>
        have hkind : obsKindsO (some ⟨JStr.plain s, kbOut, acOut⟩) =
            [UnitKind.observation .agentCollaboratorResult] := by
          simp [obsKindsO, Json.isStr, JStr.toJson, h1, h2]
        cases acOut with
        | none =>
          refine ⟨[⟨.observation .agentCollaboratorResult, acOutTitle "不明なエージェント",
                    .str "サブエージェントからのテキスト出力はありませんでした。", true⟩], ?_, ?_⟩
          · cases kbOut <;>
              simp [display_observation_details, ObsShape.toJson, optField, pyGet1,
                pyGetD, Json.lookup, List.lookup, Json.isStr, JStr.toJson, Json.truthy,
                pyStr, h1, h2]
          · rw [hkind]; rfl
        | some a =>
          obtain ⟨nm, out⟩ := a
          cases out with
          | none =>
            refine ⟨[⟨.observation .agentCollaboratorResult,
                      acOutTitle (match nm with
                        | some nv => pyStr nv.toJson
                        | none => "不明なエージェント"),
                      .str "サブエージェントからのテキスト出力はありませんでした。", true⟩], ?_, ?_⟩
            · cases kbOut <;> cases nm <;>
                simp [display_observation_details, ObsShape.toJson, ACOutShape.toJson,
                  optField, pyGet1, pyGetD, Json.lookup, List.lookup, Json.isStr,
                  JStr.toJson, Json.truthy, pyStr, h1, h2]
            · rw [hkind]; rfl
          | some t =>
            cases t with
            | none =>
              refine ⟨[⟨.observation .agentCollaboratorResult,
                        acOutTitle (match nm with
                          | some nv => pyStr nv.toJson
                          | none => "不明なエージェント"),
                        .str "サブエージェントからのテキスト出力はありませんでした。", true⟩], ?_, ?_⟩
              · cases kbOut <;> cases nm <;>
                  simp [display_observation_details, ObsShape.toJson, ACOutShape.toJson,
                    optField, pyGet1, pyGetD, Json.lookup, List.lookup, Json.isStr,
                    JStr.toJson, Json.truthy, pyStr, h1, h2]
              · rw [hkind]; rfl
            | some tv =>
              cases htv : tv.truthy with
              | true =>
                refine ⟨[⟨.observation .agentCollaboratorResult,
                          acOutTitle (match nm with
                            | some nv => pyStr nv.toJson
                            | none => "不明なエージェント"), tv, true⟩], ?_, ?_⟩
                · cases kbOut <;> cases nm <;>
                    simp [display_observation_details, ObsShape.toJson, ACOutShape.toJson,
                      optField, pyGet1, pyGetD, Json.lookup, List.lookup, Json.isStr,
                      JStr.toJson, pyStr, h1, h2, htv]
                · rw [hkind]; rfl
              | false =>
                refine ⟨[⟨.observation .agentCollaboratorResult,
                          acOutTitle (match nm with
                            | some nv => pyStr nv.toJson
                            | none => "不明なエージェント"),
                          .str "サブエージェントからのテキスト出力はありませんでした。", true⟩], ?_, ?_⟩
                · cases kbOut <;> cases nm <;>
                    simp [display_observation_details, ObsShape.toJson, ACOutShape.toJson,
                      optField, pyGet1, pyGetD, Json.lookup, List.lookup, Json.isStr,
                      JStr.toJson, pyStr, h1, h2, htv]
                · rw [hkind]; rfl
      | false =>
        refine ⟨[], ?_, ?_⟩
        · cases kbOut <;> cases acOut <;>
            simp [display_observation_details, ObsShape.toJson, optField, pyGet1,
              pyGetD, Json.lookup, List.lookup, Json.isStr, JStr.toJson, h1, h2]
        · simp [obsKindsO, Json.isStr, JStr.toJson, h1, h2]

theorem handle_trace_event_spec (c : OrchShape) (hs : invSafeO c.inv = true) :
    ∃ us, handle_trace_event (RawShape.trace (some c)).toJson = .ok us ∧
      us.map (fun u => u.kind) = specRenderKinds c := by
  rw [handle_trace_event_unfold, miiUnits_orch, mioUnits_orch, rationaleUnits_orch,
    invocationUnits_orch, observationUnits_orch]
  have hinv : ∃ u4, (match c.inv with
      | none => Except.ok []
      | some v => invInner v.toJson) = .ok u4 ∧
      u4.map (fun u => u.kind) = invKindsO c.inv := by
    cases hI : c.inv with
    | none => exact ⟨[], rfl, rfl⟩
    | some v =>
      have hv : v.safe = true := by rw [hI] at hs; exact hs
      simpa [invKindsO] using invInner_spec v hv
  have hobs : ∃ u5, (match c.obs with
      | none => Except.ok []
      | some o => display_observation_details o.toJson) = .ok u5 ∧
      u5.map (fun u => u.kind) = obsKindsO c.obs := by
    cases hO : c.obs with
    | none => exact ⟨[], rfl, rfl⟩
    | some o => simpa [obsKindsO] using display_obs_spec o
  obtain ⟨u4, h4, k4⟩ := hinv
  obtain ⟨u5, h5, k5⟩ := hobs
  rw [h4, h5]
  simp only [andThen_ok]
  refine ⟨_, rfl, ?_⟩
  rw [specRenderKinds]
  simp only [List.map_append, k4, k5]
  cases c.mii <;> cases c.mio <;> cases c.rat <;> simp

theorem invKinds_length (v : InvShape) :
    (invKindsO (some v)).length = (if v.recognized then 1 else 0) := by
  cases ha : v.invocationType.toJson.isStr "AGENT_COLLABORATOR" <;>
  cases hb : v.invocationType.toJson.isStr "KNOWLEDGE_BASE" <;>
  cases hc : v.invocationType.toJson.isStr "ACTION_GROUP" <;>
    simp [invKindsO, InvShape.recognized, ha, hb, hc]

theorem obsKinds_length (o : ObsShape) :
    (obsKindsO (some o)).length = (if o.recognized then 1 else 0) := by
  cases ha : o.type.toJson.isStr "KNOWLEDGE_BASE" <;>
  cases hb : o.type.toJson.isStr "AGENT_COLLABORATOR" <;>
    simp [obsKindsO, ObsShape.recognized, ha, hb]

theorem specRenderKinds_length (c : OrchShape) (hinv : invOkO c.inv = true)
    (hobs : obsOkO c.obs = true) :
    (specRenderKinds c).length = c.presentCount := by
  obtain ⟨mii, mio, rat, inv, obs⟩ := c
  have hI : (invKindsO inv).length = (if inv.isSome then 1 else 0) := by
    cases inv with
    | none => rfl
    | some v =>
      rw [invKinds_length]
      have hr : v.recognized = true := by
        simp [invOkO, Bool.and_eq_true] at hinv
        exact hinv.1
      simp [hr]
  have hO : (obsKindsO obs).length = (if obs.isSome then 1 else 0) := by
    cases obs with
    | none => rfl
    | some o =>
      rw [obsKinds_length]
      have hr : o.recognized = true := by simpa [obsOkO] using hobs
      simp [hr]
  cases mii <;> cases mio <;> cases rat <;>
    simp [specRenderKinds, OrchShape.presentCount, hI, hO] <;> omega

theorem processEvent_trace (c : Option OrchShape) :
    processEvent (RawShape.trace c).toJson =
      andThen (handle_trace_event (RawShape.trace c).toJson) (fun us => .ok (us, [])) := by
  cases c <;> rfl

theorem processEvent_chunk (s : String) :
    processEvent (RawShape.chunk s).toJson =
      .ok ([⟨.answer, "", .str s, true⟩], [⟨"assistant", s⟩]) := rfl

theorem pyIndex_def (j : Json) (k : String) :
    pyIndex j k = (match j.lookup k with
      | some v => .ok v
      | none => .error (match j with
          | .obj _ => PyErr.keyError k
          | _ => PyErr.typeError)) := rfl

theorem processEvent_ok_entries (e : Json) (u : List RenderableUnit)
    (nm : List TranscriptEntry) (h : processEvent e = .ok (u, nm)) :
    nm = entryOf e ∧ e.hasKey "chunk" = (chunkText e).isSome := by
  unfold processEvent at h
  cases htr : (if e.hasKey "trace" then handle_trace_event e else .ok []) with
  | error err => rw [htr] at h; simp [andThen] at h
  | ok tu =>
    rw [htr, andThen_ok] at h
    cases hk : e.hasKey "chunk" with
    | false =>
      rw [hk] at h
      simp only [Bool.false_eq_true, if_false, Except.ok.injEq, Prod.mk.injEq] at h
      have hc : e.lookup "chunk" = none := by
        cases hc : e.lookup "chunk" with
        | none => rfl
        | some v => rw [Json.hasKey, hc] at hk; simp at hk
      refine ⟨?_, ?_⟩
      · rw [← h.2]; simp [entryOf, chunkText, hc]
      · simp [chunkText, hc]
    | true =>
      rw [hk] at h
      simp only [if_true] at h
      cases hc : e.lookup "chunk" with
      | none => rw [pyIndex_def, hc] at h; exact Except.noConfusion h
      | some chunkv =>
        rw [pyIndex_def, hc] at h
        simp only [andThen_ok] at h
        cases hb : chunkv.lookup "bytes" with
        | none => rw [pyIndex_def, hb] at h; exact Except.noConfusion h
        | some b =>
          rw [pyIndex_def, hb] at h
          simp only [andThen_ok] at h
          cases b with
          | bytes d =>
            cases d with
            | none => exact Except.noConfusion h
            | some s =>
              simp only [pyDecode, andThen_ok, Except.ok.injEq, Prod.mk.injEq] at h
              refine ⟨?_, ?_⟩
              · rw [← h.2]; simp [entryOf, chunkText, hc, hb]
              · simp [chunkText, hc, hb]
          | null => exact Except.noConfusion h
          | bool b => exact Except.noConfusion h
          | num n => exact Except.noConfusion h
          | str s => exact Except.noConfusion h
          | jstr j => exact Except.noConfusion h
          | arr xs => exact Except.noConfusion h
          | obj fs => exact Except.noConfusion h

theorem consumeEvents_spec (events : List Json) :
    ∀ (ms : List TranscriptEntry) (us : List RenderableUnit),
    (∃ tail, (consumeEvents events ms us).messages = ms ++ tail ∧
       ∀ x ∈ tail, x.role = "assistant") ∧
    ((consumeEvents events ms us).error = none →
       (consumeEvents events ms us).messages =
         ms ++ (events.filterMap chunkText).map
           (fun s => (⟨"assistant", s⟩ : TranscriptEntry)) ∧
       (events.filter (fun e => e.hasKey "chunk")).length =
         (events.filterMap chunkText).length) := by
  induction events with
  | nil =>
    intro ms us
    exact ⟨⟨[], by simp [consumeEvents], by simp⟩,
      fun _ => ⟨by simp [consumeEvents], rfl⟩⟩
  | cons e rest ih =>
    intro ms us
    cases hpe : processEvent e with
    | error err =>
      have heq : consumeEvents (e :: rest) ms us = ⟨ms, us, some err⟩ := by
        simp [consumeEvents, hpe]
      rw [heq]
      exact ⟨⟨[], by simp, by simp⟩, fun hno => by simp at hno⟩
    | ok p =>
      obtain ⟨u, nm⟩ := p
      obtain ⟨hnm, hkey⟩ := processEvent_ok_entries e u nm hpe
      have heq : consumeEvents (e :: rest) ms us =
          consumeEvents rest (ms ++ nm) (us ++ u) := by
        simp [consumeEvents, hpe]
      rw [heq]
      obtain ⟨⟨tail, htail, hrole⟩, hok⟩ := ih (ms ++ nm) (us ++ u)
      constructor
      · refine ⟨nm ++ tail, by rw [htail, List.append_assoc], ?_⟩
        intro x hx
        rcases List.mem_append.mp hx with hx | hx
        · subst hnm
          revert hx
          cases hct : chunkText e <;> simp [entryOf, hct]
          intro hx; rw [hx]
        · exact hrole x hx
      · intro hno
        obtain ⟨hmsg, hlen⟩ := hok hno
        constructor
        · rw [hmsg]
          subst hnm
          cases hct : chunkText e <;>
            simp [entryOf, hct, List.filterMap_cons, List.append_assoc]
        · cases hct : chunkText e <;>
            rw [hct] at hkey <;>
            simp [List.filterMap_cons, List.filter_cons, hct, hkey, hlen]

theorem invOk_safe (i : Option InvShape) (h : invOkO i = true) : invSafeO i = true := by
  cases i with
  | none => rfl
  | some v =>
    simp [invOkO, Bool.and_eq_true] at h
    simpa [invSafeO] using h.2

theorem mainStep_stream_messages (st : SessionSt) (p : String) (events : List Json)
    (terminal : Option TransportErr) (hp : (p == "") = false) :
    (mainStep st p (.stream events terminal)).1.messages =
      (consumeEvents events (st.messages ++ [⟨"human", p⟩]) []).messages := by
  simp only [mainStep, hp, Bool.false_eq_true, if_false, handle_agent_response]
  cases herr : (consumeEvents events (st.messages ++ [⟨"human", p⟩]) []).error with
  | some perr => simp [herr]
  | none => cases terminal <;> simp [herr]

/-
Claim theorems.
-/

/-- C1 counterexample: an event carrying both a trace field and a chunk
field is not classified as AnswerChunk only; the handler emits the trace
unit first and the answer unit second, refuting the claimed chunk-first
single-variant classification. -/
theorem c1_counterexample :
    (processEvent (bothFieldsEvt "Use tool X" "Hi")).map
      (fun p => p.1.map (fun u => u.kind)) =
      .ok [UnitKind.rationale, UnitKind.answer] := rfl

/-- C1 amended: the handler inspects the trace field before the chunk
field and the two checks are independent: an event carrying both fields
renders its trace sub-fields first and then appends the decoded chunk as
one assistant transcript entry and one answer unit; only events carrying
at most one of the two fields yield a single classification. -/
theorem c1_amended (t s : String) :
    processEvent (bothFieldsEvt t s) =
      .ok ([⟨.rationale, "✅ 次のアクションを決定しました", .str t, true⟩,
            ⟨.answer, "", .str s, true⟩],
           [⟨"assistant", s⟩]) := rfl

/-- C2 counterexample: a contract-shaped trace event whose
invocationInput has invocationType AGENT_COLLABORATOR but no
agentCollaboratorInvocationInput record makes processing raise KeyError
instead of degrading to a fallback. -/
theorem c2_counterexample :
    processEvent c2BadEvent.toJson =
      .error (.keyError "agentCollaboratorInvocationInput") := rfl

/-- C2 amended: for every contract-shaped raw event whose
invocationInput, when present, carries the sub-input its recognised
invocationType selects (with the collaborator name present in the
AGENT_COLLABORATOR case), classification and rendering raise no
exception; events violating that side condition raise KeyError. -/
theorem c2_amended (r : RawShape) (h : rawSafe r = true) :
    isOkE (processEvent r.toJson) = true := by
  cases r with
  | chunk s => rw [processEvent_chunk]; rfl
  | trace c =>
    cases c with
    | none => rfl
    | some c =>
      obtain ⟨us, hus, -⟩ := handle_trace_event_spec c h
      rw [processEvent_trace, hus]
      rfl

/-- C2 witness: a complete knowledge-base trace event satisfies the side
condition and is processed without exception. -/
theorem c2_witness :
    rawSafe c2GoodEvent = true ∧ isOkE (processEvent c2GoodEvent.toJson) = true :=
  ⟨rfl, c2_amended c2GoodEvent rfl⟩

/-- C3 counterexample: a trace event announcing an agent collaborator
whose collaborator name is missing makes rendering raise KeyError on
agentCollaboratorName; no placeholder title is produced. -/
theorem c3_counterexample :
    handle_trace_event (c3Event (.plain "調査して")).toJson =
      .error (.keyError "agentCollaboratorName") := rfl

/-- C3 amended: when the collaborator name is missing from an
AGENT_COLLABORATOR invocationInput, rendering raises KeyError rather
than using a placeholder; the default placeholder name is used only by
the observation path, when agentCollaboratorInvocationOutput lacks the
name. -/
theorem c3_amended :
    (∀ t : JStr, handle_trace_event (c3Event t).toJson =
      .error (.keyError "agentCollaboratorName")) ∧
    (∀ out : Option (Option Json),
      ∃ b, display_observation_details
          (ObsShape.toJson ⟨.plain "AGENT_COLLABORATOR", none, some ⟨none, out⟩⟩) =
        .ok [⟨.observation .agentCollaboratorResult,
              acOutTitle "不明なエージェント", b, true⟩]) := by
  constructor
  · intro t; rfl
  · intro out
    cases out with
    | none => exact ⟨_, rfl⟩
    | some t =>
      cases t with
      | none => exact ⟨_, rfl⟩
      | some tv =>
        cases htv : tv.truthy with
        | true =>
          refine ⟨tv, ?_⟩
          simp [display_observation_details, ObsShape.toJson, ACOutShape.toJson,
            optField, pyGet1, pyGetD, Json.lookup, List.lookup, Json.isStr,
            JStr.toJson, pyStr, andThen, htv]
        | false =>
          refine ⟨.str "サブエージェントからのテキスト出力はありませんでした。", ?_⟩
          simp [display_observation_details, ObsShape.toJson, ACOutShape.toJson,
            optField, pyGet1, pyGetD, Json.lookup, List.lookup, Json.isStr,
            JStr.toJson, pyStr, andThen, htv]

/-- C4 counterexample: a trace event with exactly one present
orchestration sub-field, an invocationInput of the unrecognised type
FINISH, renders zero units instead of the claimed one. -/
theorem c4_counterexample :
    handle_trace_event (RawShape.trace (some c4BadOrch)).toJson = .ok [] ∧
    c4BadOrch.presentCount = 1 := ⟨rfl, rfl⟩

/-- C4 amended: for a trace event with N present orchestration
sub-fields whose invocationInput, when present, has a recognised
invocationType with its sub-input present, and whose observation, when
present, has a recognised type, rendering yields exactly N units in the
fixed order ModelInput, ModelOutput, Rationale, ToolInvocation,
Observation; sub-fields with unrecognised types yield no unit. -/
theorem c4_amended (c : OrchShape) (hinv : invOkO c.inv = true)
    (hobs : obsOkO c.obs = true) :
    ∃ us, handle_trace_event (RawShape.trace (some c)).toJson = .ok us ∧
      us.map (fun u => u.kind) = specRenderKinds c ∧
      us.length = c.presentCount := by
  obtain ⟨us, h1, h2⟩ := handle_trace_event_spec c (invOk_safe c.inv hinv)
  refine ⟨us, h1, h2, ?_⟩
  have hl : us.length = (us.map (fun u => u.kind)).length := by simp
  rw [hl, h2, specRenderKinds_length c hinv hobs]

/-- C4 witness: a trace event with all five sub-fields present,
recognised and complete satisfies the hypotheses and renders five units. -/
theorem c4_witness :
    invOkO c4FullOrch.inv = true ∧ obsOkO c4FullOrch.obs = true ∧
    (∃ us, handle_trace_event (RawShape.trace (some c4FullOrch)).toJson = .ok us ∧
      us.map (fun u => u.kind) = specRenderKinds c4FullOrch ∧
      us.length = c4FullOrch.presentCount) :=
  ⟨rfl, rfl, c4_amended c4FullOrch rfl rfl⟩

/-- C5 counterexample: a stream containing one chunk event preceded by a
malformed trace event appends no transcript entry at all: the exception
aborts consumption before the chunk is reached, so fewer than k entries
are appended. -/
theorem c5_counterexample :
    (c5Events.filter (fun e => e.hasKey "chunk")).length = 1 ∧
    (handle_agent_response c5Events []).messages = [] := ⟨rfl, rfl⟩

/-- C5 amended: when consuming the stream completes without an
exception, exactly one assistant entry is appended per chunk event, in
stream order, one distinct entry per chunk. -/
theorem c5_amended (events : List Json) (ms : List TranscriptEntry)
    (h : (handle_agent_response events ms).error = none) :
    (handle_agent_response events ms).messages =
      ms ++ (events.filterMap chunkText).map
        (fun s => (⟨"assistant", s⟩ : TranscriptEntry)) ∧
    (events.filter (fun e => e.hasKey "chunk")).length =
      (events.filterMap chunkText).length :=
  (consumeEvents_spec events ms []).2 h

/-- C5 witness: a two-chunk stream completes without error and appends
exactly two assistant entries in order. -/
theorem c5_witness :
    (handle_agent_response c5GoodEvents []).error = none ∧
    ((handle_agent_response c5GoodEvents []).messages =
        [] ++ (c5GoodEvents.filterMap chunkText).map
          (fun s => (⟨"assistant", s⟩ : TranscriptEntry)) ∧
      (c5GoodEvents.filter (fun e => e.hasKey "chunk")).length =
        (c5GoodEvents.filterMap chunkText).length) :=
  ⟨rfl, c5_amended c5GoodEvents [] rfl⟩

/-- C6: a caught invocation failure is classified by the text of the
error: a text containing dependencyFailedException yields the
dependency-failed popup, otherwise a text containing throttlingException
yields the throttling popup, and any other text is re-raised unchanged
to the caller. -/
theorem c6_error_classification (st : SessionSt) (p : String) (e : TransportErr)
    (hp : (p == "") = false) (hk : caughtKind e.kind = true) :
    (strContains e.msg "dependencyFailedException" = true →
      (mainStep st p (.failed e)).2 =
        .popup (show_error_popup "dependencyFailedException")) ∧
    (strContains e.msg "dependencyFailedException" = false →
      strContains e.msg "throttlingException" = true →
      (mainStep st p (.failed e)).2 =
        .popup (show_error_popup "throttlingException")) ∧
    (strContains e.msg "dependencyFailedException" = false →
      strContains e.msg "throttlingException" = false →
      (mainStep st p (.failed e)).2 = .raised e) := by
  refine ⟨fun h1 => ?_, fun h1 h2 => ?_, fun h1 h2 => ?_⟩
  · simp [mainStep, hp, handleTransportErr, hk, classifyCaught, h1]
  · simp [mainStep, hp, handleTransportErr, hk, classifyCaught, h1, h2]
  · simp [mainStep, hp, handleTransportErr, hk, classifyCaught, h1, h2]

/-- C6 witness: a caught client error mentioning throttlingException is
classified as the throttling popup. -/
theorem c6_witness :
    ("質問6" == "") = false ∧ caughtKind c6Err.kind = true ∧
    strContains c6Err.msg "dependencyFailedException" = false ∧
    strContains c6Err.msg "throttlingException" = true ∧
    (mainStep c6St "質問6" (.failed c6Err)).2 =
      .popup (show_error_popup "throttlingException") :=
  ⟨rfl, rfl, rfl, rfl,
    (c6_error_classification c6St "質問6" c6Err rfl rfl).2.1 rfl rfl⟩

/-- C7: for a model-output payload whose document parses with a first
content element carrying a text field, a non-empty text is the rendered
body, an empty text falls back to the raw first content element, and an
unparseable payload is rendered as the raw payload text. -/
theorem c7_model_output (fs efs : List (String × Json)) (rest : List Json)
    (s raw : String)
    (hc : List.lookup "content" fs = some (.arr (.obj efs :: rest)))
    (ht : List.lookup "text" efs = some (.str s)) :
    (s ≠ "" → modelOutputBody (.jstr (.obj fs)) = .str s) ∧
    (s = "" → modelOutputBody (.jstr (.obj fs)) = .obj efs) ∧
    modelOutputBody (.str raw) = .str raw := by
  have hbase : modelOutputParse (.jstr (.obj fs)) =
      (if (Json.str s).truthy then .ok (.str s) else .ok (.obj efs)) := by
    simp [modelOutputParse, jsonLoads, pyIndex, pyIndexNat, Json.lookup, hc, ht]
  refine ⟨fun hs => ?_, fun hs => ?_, rfl⟩
  · simp [modelOutputBody, hbase, Json.truthy, hs]
  · subst hs; simp [modelOutputBody, hbase, Json.truthy]

/-- C7 witness: a parsed document with non-empty text renders that text. -/
theorem c7_witness :
    List.lookup "content" c7Doc = some (.arr (.obj [("text", .str "思考結果")] :: [])) ∧
    List.lookup "text" [("text", Json.str "思考結果")] = some (.str "思考結果") ∧
    ("思考結果" ≠ "") ∧
    modelOutputBody (.jstr (.obj c7Doc)) = .str "思考結果" :=
  ⟨rfl, rfl, by decide,
    (c7_model_output c7Doc [("text", .str "思考結果")] [] "思考結果" "raw" rfl rfl).1
      (by decide)⟩

/-- C8 counterexample: when the stream fails after delivering a chunk,
the classified failure leaves the already-appended assistant entry in
the transcript, refuting the claim that no assistant entry is added on
invocation failure. -/
theorem c8_counterexample :
    (mainStep c8St "質問8" (.stream c8Events (some c8Terminal))).1.messages =
      [⟨"human", "質問8"⟩, ⟨"assistant", "回答A"⟩] ∧
    (mainStep c8St "質問8" (.stream c8Events (some c8Terminal))).2 =
      .popup (show_error_popup "dependencyFailedException") := ⟨rfl, rfl⟩

/-- C8 amended: the transcript is never rolled back on failure: the user
entry appended before invocation always remains; when the invoke call
itself fails no assistant entry is added, and when the stream fails
mid-consumption exactly the assistant entries for chunks already
consumed remain after the user entry. -/
theorem c8_amended (st : SessionSt) (p : String) (e te : TransportErr)
    (events : List Json) (hp : (p == "") = false) :
    (mainStep st p (.failed e)).1.messages = st.messages ++ [⟨"human", p⟩] ∧
    (∃ tail, (mainStep st p (.stream events (some te))).1.messages =
        st.messages ++ ⟨"human", p⟩ :: tail ∧
      ∀ x ∈ tail, x.role = "assistant") := by
  constructor
  · simp [mainStep, hp]
  · obtain ⟨⟨tail, htail, hrole⟩, -⟩ :=
      consumeEvents_spec events (st.messages ++ [⟨"human", p⟩]) []
    refine ⟨tail, ?_, hrole⟩
    rw [mainStep_stream_messages st p events (some te) hp, htail,
      List.append_assoc]
    rfl

/-- C8 witness: a failing invoke call leaves exactly the user entry; a
failing stream leaves the user entry followed by assistant entries. -/
theorem c8_witness :
    ("質問8w" == "") = false ∧
    ((mainStep c8St "質問8w" (.failed c8Terminal)).1.messages =
        c8St.messages ++ [⟨"human", "質問8w"⟩] ∧
      (∃ tail, (mainStep c8St "質問8w" (.stream c8Events (some c8Terminal))).1.messages =
          c8St.messages ++ ⟨"human", "質問8w"⟩ :: tail ∧
        ∀ x ∈ tail, x.role = "assistant")) :=
  ⟨rfl, c8_amended c8St "質問8w" c8Terminal c8Terminal c8Events rfl⟩

/-- C9: only the two caught transport error classes are inspected for
classification; an error of any other class propagates unclassified,
even when its text contains one of the known tokens. -/
theorem c9_uncaught_kinds (st : SessionSt) (p : String) (e : TransportErr)
    (hp : (p == "") = false) (hk : e.kind = .otherError) :
    (mainStep st p (.failed e)).2 = .raised e ∧
    handleTransportErr e = .raised e := by
  have hc : caughtKind e.kind = false := by rw [hk]; rfl
  have h2 : handleTransportErr e = .raised e := by simp [handleTransportErr, hc]
  exact ⟨by simp [mainStep, hp, h2], h2⟩

/-- C9 witness: an uncaught error class mentioning throttlingException
propagates unclassified. -/
theorem c9_witness :
    ("質問9" == "") = false ∧ c9Err.kind = .otherError ∧
    strContains c9Err.msg "throttlingException" = true ∧
    (mainStep c9St "質問9" (.failed c9Err)).2 = .raised c9Err :=
  ⟨rfl, rfl, rfl, (c9_uncaught_kinds c9St "質問9" c9Err rfl rfl).1⟩

/-- C10: an empty prompt performs no state change: the session state is
returned untouched, no transcript entry is appended, and the result
notInvoked records that the agent was not invoked, for every possible
transport outcome. -/
theorem c10_empty_prompt (st : SessionSt) (outcome : InvokeOutcome) :
    mainStep st "" outcome = (st, .notInvoked) := rfl

end Frontend
